import Mathlib

/-!
Verification of the BRK.B valuation dashboard.

The development shallowly embeds the deterministic logic of the dashboard:
the valuation engine (`valuation`, `currentPbrValue`, `currentStatusInfo`
from `src/App.tsx`), the chart projection (`backtestChartData` from
`src/App.tsx`), the three data services with their hardcoded fallbacks
(`fetchLatestBrkData`, `fetchPbrDistribution`, `performBacktestAnalysis`
from `src/services/geminiService.ts`), and the orchestrating state
transitions (`fetchData`, `runBacktest` from `src/App.tsx`).

JavaScript numbers are modelled as exact rationals (`ℚ`).  An external
request that can reject is modelled as an `Except String` value handed to
the function that awaits it; the services return `Except String α` so that
"the service never propagates an error" is a provable statement rather
than a typing convention.
-/

namespace BrkB

/-- Financial snapshot (interface `BrkFinancialData` in `src/types.ts`). -/
structure BrkFinancialData where
  totalEquity : ℚ
  totalAShares : ℚ
  currentPrice : ℚ
  lastUpdated : String
  sourceUrl : Option String
deriving Repr, DecidableEq

/-- Historical PBR bucket (interface `PbrDistribution` in `src/types.ts`). -/
structure PbrDistribution where
  range : String
  percentage : ℚ
  count : ℚ
deriving Repr, DecidableEq

/-- Backtest payload (interface `BacktestResult` in `src/types.ts`).
The `holdingTimeline` field declared in `src/types.ts` is omitted: the
authoritative producer (`performBacktestAnalysis` in
`src/services/geminiService.ts`) never puts it into its fallback literal,
and no claim concerns it. -/
structure BacktestResult where
  labels : List String
  holdValues : List ℚ
  qqqHoldValues : List ℚ
  strategyValues : List ℚ
  numTrades : ℚ
  holdRoi : ℚ
  qqqRoi : ℚ
  strategyRoi : ℚ
  optimalBuyPbr : ℚ
  optimalSellPbr : ℚ
  description : String
deriving Repr, DecidableEq

/-- Derived valuation record (`valuation` memo in `src/App.tsx`). -/
structure Valuation where
  bookValuePerA : ℚ
  bookValuePerB : ℚ
  targets : List (ℚ × ℚ)
deriving Repr, DecidableEq

/-- The fixed multiplier ladder of `src/App.tsx` line 66. -/
def valuationMultipliers : List ℚ :=
  [1.0, 1.2, 1.4, 1.45, 1.47, 1.49, 1.5, 1.51, 1.52, 1.55, 1.6, 1.8]

/-- `multipliers.map(m => ({ multiplier: m, price: bookValuePerB * m }))`
(`src/App.tsx` line 67), abstracted over the book value. -/
def targetsFor (bookValuePerB : ℚ) : List (ℚ × ℚ) :=
  valuationMultipliers.map fun m => (m, bookValuePerB * m)

/-- The `valuation` memo of `src/App.tsx` lines 61-69 (non-null branch). -/
def valuation (data : BrkFinancialData) : Valuation :=
  let bookValuePerA := (data.totalEquity * 1000000) / data.totalAShares
  let bookValuePerB := bookValuePerA / 1500
  { bookValuePerA := bookValuePerA
    bookValuePerB := bookValuePerB
    targets := targetsFor bookValuePerB }

/-- The `currentPbrValue` memo of `src/App.tsx` lines 71-74 (non-null branch). -/
def currentPbrValue (data : BrkFinancialData) : ℚ :=
  data.currentPrice / (valuation data).bookValuePerB

/-- Recommendation record returned by `currentStatusInfo` (`src/App.tsx`). -/
structure StatusInfo where
  label : String
  color : String
  border : String
deriving Repr, DecidableEq

/-- The `currentStatusInfo` memo of `src/App.tsx` lines 76-84: a chained
threshold comparison on the current PBR. -/
def currentStatusInfo (pbr : ℚ) : StatusInfo :=
  if pbr ≤ 1.45 then ⟨"全力買入 (Deep Value)", "bg-emerald-600 text-white", "border-emerald-700"⟩
  else if pbr ≤ 1.47 then ⟨"積極買入 (Entry Zone)", "bg-emerald-100 text-emerald-700", "border-emerald-200"⟩
  else if pbr ≤ 1.49 then ⟨"常態持有 (Accumulate)", "bg-blue-50 text-blue-700", "border-blue-100"⟩
  else if pbr ≤ 1.51 then ⟨"準備分批賣出 (Pre-Trim)", "bg-amber-50 text-amber-700", "border-amber-100"⟩
  else if pbr ≤ 1.53 then ⟨"建議切換至 QQQ (Shift)", "bg-orange-100 text-orange-700", "border-orange-200"⟩
  else ⟨"全力避險 (Overvalued)", "bg-rose-100 text-rose-700", "border-rose-200"⟩

/-- The six configured zone records, in the order of the threshold chain. -/
def zoneStatusList : List StatusInfo :=
  [⟨"全力買入 (Deep Value)", "bg-emerald-600 text-white", "border-emerald-700"⟩,
   ⟨"積極買入 (Entry Zone)", "bg-emerald-100 text-emerald-700", "border-emerald-200"⟩,
   ⟨"常態持有 (Accumulate)", "bg-blue-50 text-blue-700", "border-blue-100"⟩,
   ⟨"準備分批賣出 (Pre-Trim)", "bg-amber-50 text-amber-700", "border-amber-100"⟩,
   ⟨"建議切換至 QQQ (Shift)", "bg-orange-100 text-orange-700", "border-orange-200"⟩,
   ⟨"全力避險 (Overvalued)", "bg-rose-100 text-rose-700", "border-rose-200"⟩]

/-- Zone record for a band index. -/
def statusOfBand (i : Fin 6) : StatusInfo :=
  zoneStatusList.getD i.val ⟨"", "", ""⟩

/-- The half-open band of the real line carved out by band index `n` of the
threshold chain 1.45, 1.47, 1.49, 1.51, 1.53: band 0 is `(-∞, 1.45]`, band
`n+1` is `(tₙ, tₙ₊₁]`, band 5 is `(1.53, ∞)`. -/
def inBandN : ℕ → ℚ → Prop
  | 0, p => p ≤ 1.45
  | 1, p => 1.45 < p ∧ p ≤ 1.47
  | 2, p => 1.47 < p ∧ p ≤ 1.49
  | 3, p => 1.49 < p ∧ p ≤ 1.51
  | 4, p => 1.51 < p ∧ p ≤ 1.53
  | 5, p => 1.53 < p
  | _ + 6, _ => False

/-- Membership of a PBR value in the band of a given index. -/
def inBand (i : Fin 6) (p : ℚ) : Prop := inBandN i.val p

/-- Band index selected by the threshold chain of `currentStatusInfo`. -/
def bandOf (pbr : ℚ) : Fin 6 :=
  if pbr ≤ 1.45 then 0
  else if pbr ≤ 1.47 then 1
  else if pbr ≤ 1.49 then 2
  else if pbr ≤ 1.51 then 3
  else if pbr ≤ 1.53 then 4
  else 5

/-- One row of the backtest chart (`src/App.tsx` lines 88-93).  A series
value is `none` exactly when the JavaScript index access would yield
`undefined` (index past the end of that series). -/
structure ChartRow where
  year : String
  BRKHold : Option ℚ
  QQQHold : Option ℚ
  Strategy : Option ℚ
deriving Repr, DecidableEq

/-- The `backtestChartData` memo of `src/App.tsx` lines 86-94 (non-null
branch): `backtestData.labels.map((label, index) => ...)`. -/
def backtestChartData (backtestData : BacktestResult) : List ChartRow :=
  backtestData.labels.enum.map fun p =>
    { year := p.2
      BRKHold := backtestData.holdValues.get? p.1
      QQQHold := backtestData.qqqHoldValues.get? p.1
      Strategy := backtestData.strategyValues.get? p.1 }

/-! ### Services (`src/services/geminiService.ts`)

Each service takes the outcome of the awaited external request (generation
plus JSON parse) as an `Except String` value and returns `Except String α`:
an `Except.error` result would model the service itself rejecting. -/

/-- Parsed JSON shape requested by `fetchLatestBrkData`. -/
structure RawFinancialJson where
  totalEquity : ℚ
  totalAShares : ℚ
  currentPrice : ℚ
  source : Option String
deriving Repr, DecidableEq

/-- The hardcoded fallback snapshot of `src/services/geminiService.ts`
lines 48-54. -/
def fallbackBrkData : BrkFinancialData :=
  { totalEquity := 649368
    totalAShares := 1438223
    currentPrice := 470
    lastUpdated := "2024-12-31 (Manual Fallback)"
    sourceUrl := some ("https://www.berkshirehathaway.com/") }

/-- `fetchLatestBrkData` (`src/services/geminiService.ts` lines 7-56).
`today` stands for `new Date().toLocaleDateString()`. -/
def fetchLatestBrkData (today : String)
    (response : Except String RawFinancialJson) : Except String BrkFinancialData :=
  match response with
  | .ok result =>
      .ok { totalEquity := result.totalEquity
            totalAShares := result.totalAShares
            currentPrice := result.currentPrice
            lastUpdated := today
            sourceUrl := result.source }
  | .error _ => .ok fallbackBrkData

/-- The hardcoded fallback distribution of `src/services/geminiService.ts`
lines 95-102. -/
def fallbackPbrDistribution : List PbrDistribution :=
  [⟨"< 1.2", 15, 0⟩, ⟨"1.2 - 1.3", 25, 0⟩, ⟨"1.3 - 1.4", 35, 0⟩,
   ⟨"1.4 - 1.5", 15, 0⟩, ⟨"1.5 - 1.6", 8, 0⟩, ⟨"> 1.6", 2, 0⟩]

/-- `fetchPbrDistribution` (`src/services/geminiService.ts` lines 58-104). -/
def fetchPbrDistribution
    (response : Except String (List PbrDistribution)) : Except String (List PbrDistribution) :=
  match response with
  | .ok parsed => .ok parsed
  | .error _ => .ok fallbackPbrDistribution

/-- The hardcoded fallback backtest of `src/services/geminiService.ts`
lines 156-168, parameterized by the initial capital. -/
def backtestFallback (initialCapital : ℚ) : BacktestResult :=
  { labels := ["2020", "2021", "2022", "2023", "2024", "2025"]
    holdValues := [initialCapital, initialCapital * 1.28, initialCapital * 1.32,
      initialCapital * 1.55, initialCapital * 1.85, initialCapital * 2.05]
    qqqHoldValues := [initialCapital, initialCapital * 1.48, initialCapital * 1.75,
      initialCapital * 1.30, initialCapital * 1.95, initialCapital * 2.45]
    strategyValues := [initialCapital, initialCapital * 1.45, initialCapital * 1.55,
      initialCapital * 1.85, initialCapital * 2.35, initialCapital * 2.85]
    numTrades := 6
    holdRoi := 105
    qqqRoi := 145
    strategyRoi := 185
    optimalBuyPbr := 1.45
    optimalSellPbr := 1.55
    description := "在過去五年中，QQQ 展現了極強的增長潛力，但波动也較大。1.45/1.55 切換策略結合了 BRK.B 的穩健防禦力與 QQQ 的高增長動能。在 PBR 達到 1.55x 時切換至 QQQ，成功避開了價值股的盤整期並參與了科技股的牛市。" }

/-- `performBacktestAnalysis` (`src/services/geminiService.ts` lines 106-170). -/
def performBacktestAnalysis (initialCapital : ℚ)
    (response : Except String BacktestResult) : Except String BacktestResult :=
  match response with
  | .ok parsed => .ok parsed
  | .error _ => .ok (backtestFallback initialCapital)

/-! ### Orchestrator state transitions (`src/App.tsx`) -/

/-- The view state held by the `App` component (`src/App.tsx` lines 11-19). -/
structure AppState where
  data : Option BrkFinancialData
  loading : Bool
  backtestLoading : Bool
  backtestData : Option BacktestResult
  distributionData : List PbrDistribution
  initialCapital : ℚ
  error : Option String
  customPbr : ℚ
deriving Repr, DecidableEq

/-- The initial state of `src/App.tsx` lines 11-18. -/
def initState : AppState :=
  { data := none
    loading := true
    backtestLoading := false
    backtestData := none
    distributionData := []
    initialCapital := 10000
    error := none
    customPbr := 1.47 }

/-- The generic user-facing message set by `fetchData` on failure
(`src/App.tsx` line 32). -/
def fetchErrorMsg : String := "無法獲取最新財報或分佈數據。"

/-- `fetchData` (`src/App.tsx` lines 21-36) as a state transition on the
outcomes of the two promises joined by `Promise.all`: if either rejects,
the `catch` branch runs; otherwise both results are stored. -/
def fetchData (s : AppState) (financialResult : Except String BrkFinancialData)
    (distributionResult : Except String (List PbrDistribution)) : AppState :=
  let s1 := { s with loading := true, error := none }
  match financialResult, distributionResult with
  | .ok fin, .ok dist =>
      { s1 with data := some fin, distributionData := dist, loading := false }
  | _, _ =>
      { s1 with error := some fetchErrorMsg, loading := false }

/-- `fetchData` composed with the two services it awaits. -/
def fetchDataFlow (s : AppState) (today : String)
    (rawFin : Except String RawFinancialJson)
    (rawDist : Except String (List PbrDistribution)) : AppState :=
  fetchData s (fetchLatestBrkData today rawFin) (fetchPbrDistribution rawDist)

/-- `runBacktest` (`src/App.tsx` lines 38-48) as a state transition on the
outcome of the awaited `performBacktestAnalysis` promise.  Its `catch`
branch only logs; `finally` clears the loading flag either way. -/
def runBacktest (s : AppState)
    (serviceResult : Except String BacktestResult) : AppState :=
  let s1 := { s with backtestLoading := true }
  match serviceResult with
  | .ok result => { s1 with backtestData := some result, backtestLoading := false }
  | .error _ => { s1 with backtestLoading := false }

/-- `runBacktest` composed with the service it awaits, the external
request outcome left free. -/
def runBacktestFlow (s : AppState)
    (rawBacktest : Except String BacktestResult) : AppState :=
  runBacktest s (performBacktestAnalysis s.initialCapital rawBacktest)

/-! ### Helper lemmas -/

theorem valuationMultipliers_sorted : valuationMultipliers.Pairwise (· < ·) := by
  norm_num [valuationMultipliers, List.pairwise_cons]

theorem currentStatusInfo_eq_statusOfBand (p : ℚ) :
    currentStatusInfo p = statusOfBand (bandOf p) := by
  unfold currentStatusInfo bandOf
  split_ifs <;> rfl

theorem statusOfBand_mem (i : Fin 6) : statusOfBand i ∈ zoneStatusList := by
  fin_cases i <;> simp [statusOfBand, zoneStatusList]

theorem inBand_bandOf (p : ℚ) : inBand (bandOf p) p := by
  unfold bandOf
  split_ifs with h1 h2 h3 h4 h5
  · exact h1
  · exact ⟨not_le.mp h1, h2⟩
  · exact ⟨not_le.mp h2, h3⟩
  · exact ⟨not_le.mp h3, h4⟩
  · exact ⟨not_le.mp h4, h5⟩
  · exact not_le.mp h5

theorem inBand_cases (i : Fin 6) (p : ℚ) (h : inBand i p) :
    (i = 0 ∧ p ≤ 1.45) ∨ (i = 1 ∧ 1.45 < p ∧ p ≤ 1.47) ∨
    (i = 2 ∧ 1.47 < p ∧ p ≤ 1.49) ∨ (i = 3 ∧ 1.49 < p ∧ p ≤ 1.51) ∨
    (i = 4 ∧ 1.51 < p ∧ p ≤ 1.53) ∨ (i = 5 ∧ 1.53 < p) := by
  fin_cases i
  · exact Or.inl ⟨rfl, h⟩
  · exact Or.inr (Or.inl ⟨rfl, h⟩)
  · exact Or.inr (Or.inr (Or.inl ⟨rfl, h⟩))
  · exact Or.inr (Or.inr (Or.inr (Or.inl ⟨rfl, h⟩)))
  · exact Or.inr (Or.inr (Or.inr (Or.inr (Or.inl ⟨rfl, h⟩))))
  · exact Or.inr (Or.inr (Or.inr (Or.inr (Or.inr ⟨rfl, h⟩))))

theorem band_unique (p : ℚ) (i : Fin 6) (h : inBand i p) : i = bandOf p := by
  unfold bandOf
  rcases inBand_cases i p h with ⟨rfl, hb⟩ | ⟨rfl, hl, hr⟩ | ⟨rfl, hl, hr⟩ |
    ⟨rfl, hl, hr⟩ | ⟨rfl, hl, hr⟩ | ⟨rfl, hl⟩ <;>
    split_ifs <;>
    first
      | rfl
      | (exfalso; simp only [not_le] at *; linarith)

/-! ### Claim theorems -/

/-- Claim C1: for every snapshot with positive total equity and positive
Class-A-equivalent share count, the valuation computes `bookValuePerB`
exactly as `((totalEquity * 1e6) / totalAShares) / 1500` and
`bookValuePerA` exactly as `(totalEquity * 1e6) / totalAShares`. -/
theorem bookValue_formula (d : BrkFinancialData)
    (_hE : 0 < d.totalEquity) (_hS : 0 < d.totalAShares) :
    (valuation d).bookValuePerB = ((d.totalEquity * 1000000) / d.totalAShares) / 1500 ∧
    (valuation d).bookValuePerA = (d.totalEquity * 1000000) / d.totalAShares :=
  ⟨rfl, rfl⟩

theorem bookValue_formula_witness :
    0 < fallbackBrkData.totalEquity ∧ 0 < fallbackBrkData.totalAShares ∧
    ((valuation fallbackBrkData).bookValuePerB
        = ((fallbackBrkData.totalEquity * 1000000) / fallbackBrkData.totalAShares) / 1500 ∧
      (valuation fallbackBrkData).bookValuePerA
        = (fallbackBrkData.totalEquity * 1000000) / fallbackBrkData.totalAShares) :=
  ⟨by norm_num [fallbackBrkData], by norm_num [fallbackBrkData],
    bookValue_formula fallbackBrkData (by norm_num [fallbackBrkData])
      (by norm_num [fallbackBrkData])⟩

/-- Claim C2: the zone classification `currentStatusInfo` is total, yields
one of the six configured zone records, and the threshold chain carves the
rational line into contiguous bands with no gap and no overlap: every PBR
value lies in the band chosen by the chain and in no other band. -/
theorem zone_partition (pbr : ℚ) :
    currentStatusInfo pbr = statusOfBand (bandOf pbr) ∧
    currentStatusInfo pbr ∈ zoneStatusList ∧
    inBand (bandOf pbr) pbr ∧
    ∀ i : Fin 6, inBand i pbr → i = bandOf pbr := by
  refine ⟨currentStatusInfo_eq_statusOfBand pbr, ?_, inBand_bandOf pbr,
    fun i h => band_unique pbr i h⟩
  rw [currentStatusInfo_eq_statusOfBand pbr]
  exact statusOfBand_mem (bandOf pbr)

theorem zone_partition_witness :
    currentStatusInfo 1.5 = statusOfBand (bandOf 1.5) ∧
    currentStatusInfo 1.5 ∈ zoneStatusList ∧
    inBand (bandOf 1.5) 1.5 ∧ (3 : Fin 6) = bandOf 1.5 :=
  ⟨(zone_partition 1.5).1, (zone_partition 1.5).2.1, (zone_partition 1.5).2.2.1,
    (zone_partition 1.5).2.2.2 3 ⟨by norm_num, by norm_num⟩⟩

/-- Claim C3: for every state (hence every initial capital), when the
external backtest request rejects, `runBacktest` ends with the loading
flag false and the backtest state holding the populated fallback result. -/
theorem runBacktest_reject_recovers (s : AppState) (e : String) :
    (runBacktestFlow s (Except.error e)).backtestLoading = false ∧
    (runBacktestFlow s (Except.error e)).backtestData
      = some (backtestFallback s.initialCapital) :=
  ⟨rfl, rfl⟩

/-- Claim C4: whenever at least one of the two promises joined by
`fetchData` rejects, the generic error string is surfaced, the previously
held snapshot and distribution state are left unchanged, and loading
clears. -/
theorem fetchData_reject_preserves (s : AppState)
    (p1 : Except String BrkFinancialData) (p2 : Except String (List PbrDistribution))
    (h : (∃ e, p1 = Except.error e) ∨ (∃ e, p2 = Except.error e)) :
    (fetchData s p1 p2).error = some fetchErrorMsg ∧
    (fetchData s p1 p2).data = s.data ∧
    (fetchData s p1 p2).distributionData = s.distributionData ∧
    (fetchData s p1 p2).loading = false := by
  obtain ⟨e, rfl⟩ | ⟨e, rfl⟩ := h
  · cases p2 <;> exact ⟨rfl, rfl, rfl, rfl⟩
  · cases p1 <;> exact ⟨rfl, rfl, rfl, rfl⟩

theorem fetchData_reject_preserves_witness :
    (fetchData initState (Except.error fetchErrorMsg)
        (Except.ok fallbackPbrDistribution)).error = some fetchErrorMsg ∧
    (fetchData initState (Except.error fetchErrorMsg)
        (Except.ok fallbackPbrDistribution)).data = initState.data ∧
    (fetchData initState (Except.error fetchErrorMsg)
        (Except.ok fallbackPbrDistribution)).distributionData = initState.distributionData ∧
    (fetchData initState (Except.error fetchErrorMsg)
        (Except.ok fallbackPbrDistribution)).loading = false :=
  fetchData_reject_preserves initState _ _ (Or.inl ⟨fetchErrorMsg, rfl⟩)

/-- Claim C5 counterexample: with total equity 0 the book value per B share
is 0, all target prices coincide at 0, and the target list is not strictly
increasing, so the claim fails for book values that are not positive. -/
theorem targets_not_mono_at_zero_equity :
    ¬ ((valuation ⟨0, 1, 470, "", none⟩).targets.Pairwise
        fun p q => p.2 < q.2) := by
  norm_num [valuation, targetsFor, valuationMultipliers, List.pairwise_cons]

/-- Claim C5 (amended): for every snapshot whose derived book value per B
share is positive, the target prices are strictly increasing along the
fixed ascending multiplier list. -/
theorem targets_strictMono (d : BrkFinancialData)
    (hb : 0 < (valuation d).bookValuePerB) :
    (valuation d).targets.Pairwise fun p q => p.2 < q.2 := by
  show (targetsFor (valuation d).bookValuePerB).Pairwise fun p q => p.2 < q.2
  unfold targetsFor
  refine List.Pairwise.map _ ?_ valuationMultipliers_sorted
  intro a b hab
  exact mul_lt_mul_of_pos_left hab hb

theorem targets_strictMono_witness :
    0 < (valuation fallbackBrkData).bookValuePerB ∧
    ((valuation fallbackBrkData).targets.Pairwise fun p q => p.2 < q.2) :=
  ⟨by norm_num [valuation, fallbackBrkData],
    targets_strictMono fallbackBrkData (by norm_num [valuation, fallbackBrkData])⟩

/-- Claim C6: `backtestChartData` is deterministic, produces one row per
label, maps empty input to empty output, and when each of the three value
series matches the label count every row carries all three series values
alongside the label. -/
theorem backtestChartData_spec (b : BacktestResult) :
    backtestChartData b = backtestChartData b ∧
    (backtestChartData b).length = b.labels.length ∧
    (b.labels = [] → backtestChartData b = []) ∧
    (b.holdValues.length = b.labels.length →
      b.qqqHoldValues.length = b.labels.length →
      b.strategyValues.length = b.labels.length →
      ∀ r ∈ backtestChartData b,
        r.BRKHold.isSome = true ∧ r.QQQHold.isSome = true ∧ r.Strategy.isSome = true) := by
  refine ⟨rfl, ?_, ?_, ?_⟩
  · simp [backtestChartData]
  · intro h
    simp [backtestChartData, h]
  · intro h1 h2 h3
    simp only [backtestChartData, List.forall_mem_map]
    rw [List.forall_mem_enum]
    intro i hi
    refine ⟨?_, ?_, ?_⟩
    · rw [List.get?_eq_get (show i < b.holdValues.length by omega)]
      rfl
    · rw [List.get?_eq_get (show i < b.qqqHoldValues.length by omega)]
      rfl
    · rw [List.get?_eq_get (show i < b.strategyValues.length by omega)]
      rfl

theorem backtestChartData_spec_witness :
    (backtestChartData (backtestFallback 10000)).all
      (fun r => r.BRKHold.isSome && r.QQQHold.isSome && r.Strategy.isSome) = true := by
  have h := (backtestChartData_spec (backtestFallback 10000)).2.2.2 rfl rfl rfl
  rw [List.all_eq_true]
  intro r hr
  obtain ⟨h1, h2, h3⟩ := h r hr
  simp [h1, h2, h3]

/-- Claim C7: with initial capital 10000 the fallback backtest result has
both the hold series and the strategy series starting at 10000. -/
theorem fallback_equal_start :
    (backtestFallback 10000).holdValues.get? 0 = some 10000 ∧
    (backtestFallback 10000).strategyValues.get? 0 = some 10000 :=
  ⟨rfl, rfl⟩

/-- Claim C8 counterexample: the spec figure 451,517.9 for the fallback
book value per Class-A share is off by more than 10: the exact value is
649368000000/1438223 ≈ 451,507.17. -/
theorem fallback_bookValueA_off :
    ¬ |(valuation fallbackBrkData).bookValuePerA - 451517.9| ≤ 10 := by
  simp only [abs_le, not_and_or, not_le]
  left
  norm_num [valuation, fallbackBrkData]

/-- Claim C8 (amended): for the fallback snapshot the valuation yields
`bookValuePerA` ≈ 451,507.2 (within 0.1), `bookValuePerB` ≈ 301.01 (within
0.01), and a current PBR ≈ 1.5614 (within 0.0001). -/
theorem fallback_valuation_approx :
    |(valuation fallbackBrkData).bookValuePerA - 451507.2| ≤ 1/10 ∧
    |(valuation fallbackBrkData).bookValuePerB - 301.01| ≤ 1/100 ∧
    |currentPbrValue fallbackBrkData - 1.5614| ≤ 1/10000 := by
  refine ⟨?_, ?_, ?_⟩ <;>
    · rw [abs_le]
      constructor <;> norm_num [valuation, currentPbrValue, fallbackBrkData]

/-- Claim C9: none of the three services ever propagates an error — every
request outcome is mapped to an `ok` result (via the hardcoded fallbacks on
failure) — so the orchestrator's catch branches are unreachable and the
error state is never set by a service failure. -/
theorem services_never_reject (today : String) (rf : Except String RawFinancialJson)
    (rd : Except String (List PbrDistribution)) (c : ℚ)
    (rb : Except String BacktestResult) (s : AppState) :
    (∃ v, fetchLatestBrkData today rf = Except.ok v) ∧
    (∃ v, fetchPbrDistribution rd = Except.ok v) ∧
    (∃ v, performBacktestAnalysis c rb = Except.ok v) ∧
    (fetchDataFlow s today rf rd).error = none ∧
    (runBacktestFlow s rb).error = s.error := by
  refine ⟨?_, ?_, ?_, ?_, ?_⟩
  · cases rf <;> exact ⟨_, rfl⟩
  · cases rd <;> exact ⟨_, rfl⟩
  · cases rb <;> exact ⟨_, rfl⟩
  · cases rf <;> cases rd <;> rfl
  · cases rb <;> rfl

/-- Claim C10: for every initial capital the fallback backtest result is
internally consistent: all four sequences have length 6, every value
series starts at the initial capital, and each series ends at the capital
scaled by one plus its reported ROI over 100. -/
theorem fallback_internally_consistent (c : ℚ) :
    (backtestFallback c).labels.length = 6 ∧
    (backtestFallback c).holdValues.length = 6 ∧
    (backtestFallback c).qqqHoldValues.length = 6 ∧
    (backtestFallback c).strategyValues.length = 6 ∧
    (backtestFallback c).holdValues.get? 0 = some c ∧
    (backtestFallback c).qqqHoldValues.get? 0 = some c ∧
    (backtestFallback c).strategyValues.get? 0 = some c ∧
    (backtestFallback c).holdRoi = 105 ∧
    (backtestFallback c).qqqRoi = 145 ∧
    (backtestFallback c).strategyRoi = 185 ∧
    (backtestFallback c).holdValues.get? 5
      = some (c * (1 + (backtestFallback c).holdRoi / 100)) ∧
    (backtestFallback c).qqqHoldValues.get? 5
      = some (c * (1 + (backtestFallback c).qqqRoi / 100)) ∧
    (backtestFallback c).strategyValues.get? 5
      = some (c * (1 + (backtestFallback c).strategyRoi / 100)) := by
  refine ⟨rfl, rfl, rfl, rfl, rfl, rfl, rfl, rfl, rfl, rfl, ?_, ?_, ?_⟩ <;>
    · simp only [backtestFallback]
      norm_num

end BrkB
